import Mathlib

/-
Verification development for the Feluda repository slice.

The only source file supplied is docs/source/conf.py, the Sphinx
documentation-site build configuration.  The first part of this file is a
shallow embedding of that Python module: a small Python AST together with
the literal transcription of the module, plus evaluators for module
loading and for the setup hook.

The specification additionally describes, at design level, the core of the
Feluda license scanner itself (manifest locator, dependency graph builder,
license resolver, policy engine, report generator).  None of that code is
present under the supplied sources, so those components are modelled from
the specification text; each such definition carries a doc comment saying
so.
-/

/-! ### A small Python AST, sufficient for docs/source/conf.py -/

/-- Python expressions.  Literals (strings, ints, lists, dicts) cover every
right-hand side appearing in conf.py; name references, attribute access and
calls are included so that non-declarative code is expressible and the
theorems about the module are not vacuous. -/
inductive PyExpr where
  | strLit (s : String)
  | intLit (n : Int)
  | listLit (xs : List PyExpr)
  | dictLit (fields : List (String × PyExpr))
  | nameRef (x : String)
  | attr (obj : PyExpr) (field : String)
  | call (fn : PyExpr) (args : List PyExpr)

/-- Python statements: assignments, function definitions, bare expression
statements and return statements. -/
inductive PyStmt where
  | assign (name : String) (value : PyExpr)
  | defFun (name : String) (params : List String) (body : List PyStmt)
  | exprStmt (e : PyExpr)
  | ret (e : Option PyExpr)

mutual

/-- An expression is a pure literal: it mentions no names, attributes or
calls, so its value is a constant independent of any ambient state. -/
def isLiteral : PyExpr → Bool
  | .strLit _ => true
  | .intLit _ => true
  | .listLit xs => isLiteralList xs
  | .dictLit fs => isLiteralFields fs
  | .nameRef _ => false
  | .attr _ _ => false
  | .call _ _ => false

def isLiteralList : List PyExpr → Bool
  | [] => true
  | x :: xs => isLiteral x && isLiteralList xs

def isLiteralFields : List (String × PyExpr) → Bool
  | [] => true
  | (_, v) :: fs => isLiteral v && isLiteralFields fs

end

/-- Transcription of docs/source/conf.py, statement by statement. -/
def confPy : List PyStmt := [
  .assign "project" (.strLit "Feluda"),
  .assign "copyright" (.strLit "2025, The Feluda Maintainers"),
  .assign "author" (.strLit "The Feluda Maintainers"),
  .assign "release" (.strLit "v1.10.0"),
  .assign "extensions" (.listLit [
    .strLit "sphinx_design",
    .strLit "sphinx_iconify",
    .strLit "sphinx_tabs.tabs"]),
  .assign "templates_path" (.listLit [.strLit "_templates"]),
  .assign "exclude_patterns" (.listLit []),
  .assign "language" (.strLit "en"),
  .assign "linkcheck_ignore" (.listLit [
    .strLit "https://crates\\.io/",
    .strLit "https://api\\.opensource\\.org/"]),
  .assign "html_theme" (.strLit "shibuya"),
  .assign "html_static_path" (.listLit [.strLit "_static"]),
  .assign "html_logo" (.strLit "_static/felu.png"),
  .assign "html_favicon" (.strLit "_static/favicon.png"),
  .assign "html_title" (.strLit "Feluda"),
  .assign "html_theme_options" (.dictLit [
    ("logo_target", .strLit "/"),
    ("crate_url", .strLit "https://crates.io/crates/feluda"),
    ("github_url", .strLit "https://github.com/anistark/feluda"),
    ("discord_url", .strLit "https://discord.gg/5YrbwNRGaE")]),
  .defFun "setup" ["app"] [
    .exprStmt (.call (.attr (.nameRef "app") "add_css_file") [.strLit "custom.css"]),
    .exprStmt (.call (.attr (.nameRef "app") "add_js_file") [.strLit "custom.js"])]
]

/-- Names bound by assignment statements, in order. -/
def assignedNames (stmts : List PyStmt) : List String :=
  stmts.filterMap fun s => match s with
    | .assign n _ => some n
    | _ => none

/-- Names of functions defined by the module, in order. -/
def definedFunNames (stmts : List PyStmt) : List String :=
  stmts.filterMap fun s => match s with
    | .defFun n _ _ => some n
    | _ => none

/-- The right-hand side assigned to a given name, if any. -/
def lookupAssign (n : String) (stmts : List PyStmt) : Option PyExpr :=
  stmts.findSome? fun s => match s with
    | .assign m v => if m == n then some v else none
    | _ => none

/-- A statement of the setup hook that registers a static asset on the
Sphinx application object: a call of app.add_css_file or app.add_js_file
on a single string literal. -/
def isAssetRegCall : PyStmt → Bool
  | .exprStmt (.call (.attr (.nameRef "app") m) [.strLit _]) =>
      m == "add_css_file" || m == "add_js_file"
  | _ => false

/-- A statement is pure documentation-site configuration: either an
assignment of a literal constant, or the definition of the setup hook whose
body only registers static assets.  Any scheduler, parser, state machine,
storage engine or other application logic would need name references,
calls outside the setup hook, or non-asset statements, and would falsify
this predicate. -/
def isDocConfigStmt : PyStmt → Bool
  | .assign _ v => isLiteral v
  | .defFun n _ body => n == "setup" && body.all isAssetRegCall
  | _ => false

/-! ### Module loading -/

/-- Evaluate the right-hand side of an assignment.  A literal evaluates to
itself; any other expression would depend on the ambient environment,
modelled by the resolver ext (imports, environment variables, I/O). -/
def evalRhs (ext : PyExpr → PyExpr) (e : PyExpr) : PyExpr :=
  if isLiteral e then e else ext e

/-- Loading the module: each assignment binds its evaluated right-hand
side, in statement order.  The resolver ext supplies the value of any
non-literal right-hand side. -/
def evalModule (ext : PyExpr → PyExpr) (stmts : List PyStmt) : List (String × PyExpr) :=
  stmts.filterMap fun s => match s with
    | .assign n v => some (n, evalRhs ext v)
    | _ => none

/-- The bindings produced by loading conf.py with the identity resolver;
since every right-hand side is a literal, the resolver is never
consulted. -/
def confBindings : List (String × PyExpr) :=
  evalModule (fun e => e) confPy

/-- Value of a key of the html_theme_options dict of conf.py. -/
def themeOption (k : String) : Option PyExpr :=
  match lookupAssign "html_theme_options" confPy with
  | some (.dictLit fields) => List.lookup k fields
  | _ => none

/-! ### The Sphinx setup hook -/

/-- A recorded asset registration on the Sphinx application object. -/
inductive AssetReg where
  | cssFile (f : String)
  | jsFile (f : String)
deriving DecidableEq, Repr

/-- The observable state of the Sphinx application object: the ordered log
of asset registrations, plus unrelated state (configuration values and
connected events) that the setup hook must leave untouched. -/
structure SphinxApp where
  registrations : List AssetReg
  config : List (String × String)
  events : List String
deriving DecidableEq, Repr

/-- Effect of one statement of the setup hook body on the application
object: app.add_css_file and app.add_js_file append a registration to the
log; any other statement is not an registration and leaves the object
unchanged. -/
def runSetupStmt (app : SphinxApp) : PyStmt → SphinxApp
  | .exprStmt (.call (.attr (.nameRef "app") "add_css_file") [.strLit f]) =>
      { app with registrations := app.registrations ++ [.cssFile f] }
  | .exprStmt (.call (.attr (.nameRef "app") "add_js_file") [.strLit f]) =>
      { app with registrations := app.registrations ++ [.jsFile f] }
  | _ => app

/-- Run a function body statement list on the application object.  A
return statement stops execution with its value; falling off the end of
the body yields the Python value None, modelled as none. -/
def runSetupBody (body : List PyStmt) (app : SphinxApp) : SphinxApp × Option PyExpr :=
  match body with
  | [] => (app, none)
  | .ret e :: _ => (app, e)
  | s :: rest => runSetupBody rest (runSetupStmt app s)

/-- The body of the setup function defined by conf.py. -/
def setupBody : List PyStmt :=
  (confPy.findSome? fun s => match s with
    | .defFun "setup" _ body => some body
    | _ => none).getD []

/-- The setup hook of conf.py, applied to a Sphinx application object:
returns the updated object and the function result. -/
def setup (app : SphinxApp) : SphinxApp × Option PyExpr :=
  runSetupBody setupBody app

/-! ### The linkcheck ignore patterns -/

/-- Regex metacharacters (the subset relevant here). -/
def regexMeta : List Char := ['.', '*', '+', '?', '[', ']', '(', ')', '|', '^', '$', '\\']

/-- Interpret a regex pattern that consists only of literal characters and
backslash escapes as the list of characters it matches literally; a
pattern using any other regex feature is out of scope and yields none.
Both conf.py patterns are of this literal form. -/
def regexLits : List Char → Option (List Char)
  | [] => some []
  | '\\' :: c :: rest => (regexLits rest).map (fun l => c :: l)
  | c :: rest =>
      if regexMeta.contains c then none
      else (regexLits rest).map (fun l => c :: l)

/-- The literal characters lits match at the start of the character list
cs. -/
def litsMatch : List Char → List Char → Bool
  | [], _ => true
  | _ :: _, [] => false
  | p :: ps, c :: cs => p == c && litsMatch ps cs

/-- Sphinx linkcheck matches each ignore pattern at the start of the URL
(Python re.match semantics): the pattern's literal interpretation must be
a prefix of the URL. -/
def reMatch (pat url : String) : Bool :=
  match regexLits pat.data with
  | some lits => litsMatch lits url.data
  | none => false

/-- The linkcheck_ignore list of conf.py, as pattern strings. -/
def strItems : List PyExpr → Option (List String)
  | [] => some []
  | .strLit s :: rest => (strItems rest).map (fun l => s :: l)
  | _ => none

/-- The value of the linkcheck_ignore assignment of conf.py as a list of
pattern strings. -/
def linkcheck_ignore : List String :=
  (match lookupAssign "linkcheck_ignore" confPy with
   | some (.listLit xs) => strItems xs
   | _ => none).getD []

/-! ### The Feluda core, modelled from the specification

The scanner itself is not part of the supplied sources; the following
definitions transcribe the specification's data model and component
designs. -/

/-- Modelled from the spec: policy verdict of a finding
(allowed / denied / unknown).  The scanner source is absent. -/
inductive Verdict where
  | allowed
  | denied
  | unknown
deriving DecidableEq, Repr

/-- Modelled from the spec: resolution confidence of a license attribution
(declared / inferred / unknown).  The scanner source is absent. -/
inductive Confidence where
  | declared
  | inferred
  | unknown
deriving DecidableEq, Repr

/-- Modelled from the spec: a dependency node of the dependency graph:
name, version, ecosystem, declared license expression (possibly absent),
direct/transitive flag.  The scanner source is absent. -/
structure Dependency where
  name : String
  version : String
  ecosystem : String
  declaredLicense : Option String
  direct : Bool
deriving DecidableEq, Repr

/-- Modelled from the spec: a policy: allowed identifiers, denied
identifiers, and the default verdict for unknown licenses.  The scanner
source is absent. -/
structure Policy where
  allowed : List String
  denied : List String
  unknownDefault : Verdict
deriving DecidableEq, Repr

/-- Modelled from the spec: the outcome of license resolution for one
dependency: resolved identifiers and the resolution confidence. -/
structure Resolution where
  licenses : List String
  confidence : Confidence
deriving DecidableEq, Repr

/-- Modelled from the spec: a license finding: dependency reference,
resolved license identifiers, resolution confidence, policy verdict. -/
structure LicenseFinding where
  name : String
  version : String
  ecosystem : String
  licenses : List String
  confidence : Confidence
  verdict : Verdict
deriving DecidableEq, Repr

/-- Modelled from the spec: summary counts of a report. -/
structure Summary where
  allowedCount : Nat
  deniedCount : Nat
  unknownCount : Nat
deriving DecidableEq, Repr

/-- Modelled from the spec: a report: ordered findings, summary counts,
overall pass/fail verdict. -/
structure Report where
  findings : List LicenseFinding
  summary : Summary
  passed : Bool
deriving DecidableEq, Repr

/-- Modelled from the spec: the license resolver maps a dependency to a
resolution; a dependency whose license cannot be resolved gets
confidence unknown and no identifiers. -/
def resolveLicense (d : Dependency) : Resolution :=
  match d.declaredLicense with
  | some l => ⟨[l], .declared⟩
  | none => ⟨[], .unknown⟩

/-- Modelled from the spec: the policy engine's verdict for one
resolution.  Unknown licenses default to denied unless the policy
explicitly allows unknown (its default verdict for unknown is allowed);
otherwise a denied identifier forces denied, all-allowed identifiers give
allowed, and unlisted identifiers fall back to the unknown default. -/
def verdictFor (p : Policy) (r : Resolution) : Verdict :=
  if r.confidence = .unknown then
    (if p.unknownDefault = .allowed then .allowed else .denied)
  else if r.licenses.any (fun l => p.denied.contains l) then .denied
  else if r.licenses.all (fun l => p.allowed.contains l) then .allowed
  else if p.unknownDefault = .allowed then .allowed else .denied

/-- Modelled from the spec: the one finding produced for a dependency. -/
def findingFor (p : Policy) (d : Dependency) : LicenseFinding :=
  let r := resolveLicense d
  ⟨d.name, d.version, d.ecosystem, r.licenses, r.confidence, verdictFor p r⟩

/-- The identifying key of a dependency. -/
def depKey (d : Dependency) : String × String × String :=
  (d.name, d.version, d.ecosystem)

/-- The identifying key of a finding. -/
def findingKey (f : LicenseFinding) : String × String × String :=
  (f.name, f.version, f.ecosystem)

/-- Modelled from the spec: the graph builder normalizes parsed
dependencies into graph nodes, keeping the first occurrence of each
(name, version, ecosystem) key. -/
def dedupByKey : List Dependency → List Dependency
  | [] => []
  | d :: ds => d :: (dedupByKey ds).filter (fun e => decide (depKey e ≠ depKey d))

/-- Modelled from the spec: the nodes of the dependency graph built from
the parsed dependency list. -/
def buildGraph (deps : List Dependency) : List Dependency :=
  dedupByKey deps

/-- Modelled from the spec: resolution and policy evaluation produce
exactly one finding per graph node. -/
def buildFindings (p : Policy) (deps : List Dependency) : List LicenseFinding :=
  (buildGraph deps).map (findingFor p)

/-- Ambient run context (run identifier, wall-clock time): the policy
engine is a pure function of findings and policy, so it ignores this. -/
structure RunCtx where
  runId : Nat
  clock : Nat
deriving DecidableEq, Repr

/-- Modelled from the spec: the policy engine, a pure function from
findings and policy to verdicts. -/
def policyEngine (fs : List LicenseFinding) (p : Policy) : List Verdict :=
  fs.map fun f => verdictFor p ⟨f.licenses, f.confidence⟩

/-- A run of the policy engine in an ambient run context. -/
def runPolicyEngine (_ctx : RunCtx) (fs : List LicenseFinding) (p : Policy) : List Verdict :=
  policyEngine fs p

/-- Summary counts of a finding list. -/
def summarize (fs : List LicenseFinding) : Summary :=
  ⟨fs.countP (fun f => f.verdict == .allowed),
   fs.countP (fun f => f.verdict == .denied),
   fs.countP (fun f => f.verdict == .unknown)⟩

/-! ### Report JSON serialization -/

/-- A JSON value. -/
inductive Json where
  | str (s : String)
  | num (n : Nat)
  | arr (xs : List Json)
  | obj (fields : List (String × Json))

/-- Serialization of a confidence level. -/
def confidenceToStr : Confidence → String
  | .declared => "declared"
  | .inferred => "inferred"
  | .unknown => "unknown"

/-- Parse a confidence level. -/
def strToConfidence : String → Option Confidence
  | "declared" => some .declared
  | "inferred" => some .inferred
  | "unknown" => some .unknown
  | _ => none

/-- Serialization of a verdict. -/
def verdictToStr : Verdict → String
  | .allowed => "allowed"
  | .denied => "denied"
  | .unknown => "unknown"

/-- Parse a verdict. -/
def strToVerdict : String → Option Verdict
  | "allowed" => some .allowed
  | "denied" => some .denied
  | "unknown" => some .unknown
  | _ => none

/-- Serialization of the overall pass/fail verdict. -/
def passedToStr (b : Bool) : String :=
  if b then "pass" else "fail"

/-- Parse the overall pass/fail verdict. -/
def strToPassed : String → Option Bool
  | "pass" => some true
  | "fail" => some false
  | _ => none

/-- Modelled from the spec: JSON serialization of one finding. -/
def findingToJson (f : LicenseFinding) : Json :=
  .obj [("name", .str f.name),
        ("version", .str f.version),
        ("ecosystem", .str f.ecosystem),
        ("licenses", .arr (f.licenses.map .str)),
        ("confidence", .str (confidenceToStr f.confidence)),
        ("verdict", .str (verdictToStr f.verdict))]

/-- Parse a JSON array of strings. -/
def jsonStrs : List Json → Option (List String)
  | [] => some []
  | .str s :: rest => (jsonStrs rest).map (fun l => s :: l)
  | _ => none

/-- Modelled from the spec: JSON parser for one finding. -/
def jsonToFinding : Json → Option LicenseFinding
  | .obj [("name", .str n), ("version", .str v), ("ecosystem", .str e),
          ("licenses", .arr ls), ("confidence", .str c), ("verdict", .str w)] =>
      match jsonStrs ls, strToConfidence c, strToVerdict w with
      | some ls, some c, some w => some ⟨n, v, e, ls, c, w⟩
      | _, _, _ => none
  | _ => none

/-- Parse a JSON array of findings. -/
def jsonToFindings : List Json → Option (List LicenseFinding)
  | [] => some []
  | j :: rest =>
      match jsonToFinding j, jsonToFindings rest with
      | some f, some fs => some (f :: fs)
      | _, _ => none

/-- Modelled from the spec: JSON serialization of a report, with fields
findings, summary and verdict. -/
def reportToJson (r : Report) : Json :=
  .obj [("findings", .arr (r.findings.map findingToJson)),
        ("summary", .obj [("allowed", .num r.summary.allowedCount),
                          ("denied", .num r.summary.deniedCount),
                          ("unknown", .num r.summary.unknownCount)]),
        ("verdict", .str (passedToStr r.passed))]

/-- Modelled from the spec: JSON parser of a report. -/
def reportFromJson : Json → Option Report
  | .obj [("findings", .arr fs),
          ("summary", .obj [("allowed", .num a), ("denied", .num d), ("unknown", .num u)]),
          ("verdict", .str v)] =>
      match jsonToFindings fs, strToPassed v with
      | some fs, some b => some ⟨fs, ⟨a, d, u⟩, b⟩
      | _, _ => none
  | _ => none

/-! ### The manifest locator -/

/-- A directory tree: files, and subdirectories that are readable or
not. -/
inductive FTree where
  | file (name : String)
  | dir (name : String) (readable : Bool) (children : List FTree)

/-- A warning record for a skipped, unreadable subdirectory. -/
structure WarningRec where
  path : String
deriving DecidableEq, Repr

/-- Manifest file names the locator recognizes (ecosystem-specific
dependency declaration files). -/
def manifestNames : List String :=
  ["Cargo.toml", "package.json", "go.mod", "pyproject.toml", "requirements.txt", "Gemfile", "pom.xml"]

mutual

/-- Modelled from the spec: the manifest locator's directory walk.  A
total function: it collects manifest paths, and an unreadable
subdirectory never raises; it is skipped and recorded as a warning. -/
def walkTree (pth : String) : FTree → (List String × List WarningRec)
  | .file n =>
      (if manifestNames.contains n then [pth ++ "/" ++ n] else [], [])
  | .dir n r cs =>
      if r then walkForest (pth ++ "/" ++ n) cs
      else ([], [⟨pth ++ "/" ++ n⟩])

def walkForest (pth : String) : List FTree → (List String × List WarningRec)
  | [] => ([], [])
  | t :: ts =>
      let a := walkTree pth t
      let b := walkForest pth ts
      (a.1 ++ b.1, a.2 ++ b.2)

end

/-- Modelled from the spec: the errors of a scan run. -/
inductive FeludaError where
  | noManifestsFound
  | policyConfigError
  | rootIoError
deriving DecidableEq, Repr

/-- Modelled from the spec: the manifest locator fails with
NoManifestsFound when the walk finds no manifests, and otherwise returns
the manifest paths and the warnings. -/
def locateManifests (root : FTree) : Except FeludaError (List String × List WarningRec) :=
  let r := walkTree "" root
  if r.1.isEmpty then .error .noManifestsFound else .ok r

/-- Modelled from the spec: one scan run: locate manifests, parse each
into dependencies, build findings, and produce a report. -/
def feludaScan (parseManifest : String → List Dependency) (p : Policy) (root : FTree) :
    Except FeludaError Report :=
  match locateManifests root with
  | .error e => .error e
  | .ok r =>
      let deps := (r.1.map parseManifest).flatten
      let fs := buildFindings p deps
      let ok := fs.all fun f => f.verdict == .allowed
      .ok ⟨fs, summarize fs, ok⟩

/-- Modelled from the spec: process exit status: 0 on pass, 1 on
violations, 2 on internal error. -/
def scanExitCode (res : Except FeludaError Report) : Nat :=
  match res with
  | .error _ => 2
  | .ok r => if r.passed then 0 else 1

/-! ### Helper lemmas -/

theorem litsMatch_append_self (l r : List Char) : litsMatch l (l ++ r) = true := by
  induction l with
  | nil => rfl
  | cons c cs ih => simp [litsMatch, ih]

theorem dedupByKey_pairwise (l : List Dependency) :
    (dedupByKey l).Pairwise (fun a b => depKey a ≠ depKey b) := by
  induction l with
  | nil => exact List.Pairwise.nil
  | cons d ds ih =>
    refine List.Pairwise.cons ?_ (ih.filter _)
    intro b hb
    have hmem := List.of_mem_filter hb
    have hne : depKey b ≠ depKey d := of_decide_eq_true hmem
    exact fun h => hne h.symm

theorem findingKey_findingFor (p : Policy) (d : Dependency) :
    findingKey (findingFor p d) = depKey d := rfl

theorem evalModule_confPy (ext : PyExpr → PyExpr) :
    evalModule ext confPy = confBindings := by
  simp [evalModule, confPy, confBindings, evalRhs, isLiteral, isLiteralList, isLiteralFields]

theorem strToConfidence_confidenceToStr (c : Confidence) :
    strToConfidence (confidenceToStr c) = some c := by
  cases c <;> rfl

theorem strToVerdict_verdictToStr (v : Verdict) :
    strToVerdict (verdictToStr v) = some v := by
  cases v <;> rfl

theorem strToPassed_passedToStr (b : Bool) :
    strToPassed (passedToStr b) = some b := by
  cases b <;> rfl

theorem jsonStrs_map_str (ls : List String) :
    jsonStrs (ls.map Json.str) = some ls := by
  induction ls with
  | nil => rfl
  | cons s rest ih => simp [jsonStrs, ih]

theorem jsonToFinding_findingToJson (f : LicenseFinding) :
    jsonToFinding (findingToJson f) = some f := by
  cases f with
  | mk n v e ls c w =>
    simp [findingToJson, jsonToFinding, jsonStrs_map_str,
      strToConfidence_confidenceToStr, strToVerdict_verdictToStr]

theorem jsonToFindings_map (fs : List LicenseFinding) :
    jsonToFindings (fs.map findingToJson) = some fs := by
  induction fs with
  | nil => rfl
  | cons f rest ih => simp [jsonToFindings, jsonToFinding_findingToJson, ih]

/-! ### Claim theorems -/

/-- C1: The entire supplied source consists only of documentation-site
build configuration: every statement of the conf.py module is an
assignment of a literal configuration constant or the definition of the
setup hook that only registers static assets; the bound names are exactly
the Sphinx configuration constants (project metadata, extensions, theme
options, link-check exclusions, static-asset paths), and the only function
defined is setup — no scheduler, parser, state machine, storage engine or
other application logic is defined. -/
theorem c1_module_is_docs_config_only :
    confPy.all isDocConfigStmt = true ∧
    assignedNames confPy = ["project", "copyright", "author", "release",
      "extensions", "templates_path", "exclude_patterns", "language",
      "linkcheck_ignore", "html_theme", "html_static_path", "html_logo",
      "html_favicon", "html_title", "html_theme_options"] ∧
    definedFunNames confPy = ["setup"] := by
  refine ⟨rfl, rfl, rfl⟩

/-- C2: The policy engine is deterministic: for every policy and every
finding list, any two runs — whatever their ambient run contexts — produce
identical verdicts. -/
theorem c2_policy_engine_deterministic (ctx1 ctx2 : RunCtx)
    (fs : List LicenseFinding) (p : Policy) :
    runPolicyEngine ctx1 fs p = runPolicyEngine ctx2 fs p := rfl

/-- C3: Every dependency node of the built graph yields exactly one
finding (the finding list has the same length as the node list and its
keys are the node keys, in order), and the findings are uniquely keyed by
(name, version, ecosystem): no two findings share that key. -/
theorem c3_findings_unique_by_key (p : Policy) (deps : List Dependency) :
    (buildFindings p deps).length = (buildGraph deps).length ∧
    (buildFindings p deps).map findingKey = (buildGraph deps).map depKey ∧
    ((buildFindings p deps).map findingKey).Nodup := by
  have hmap : (buildFindings p deps).map findingKey = (buildGraph deps).map depKey := by
    simp [buildFindings, List.map_map, Function.comp, findingKey_findingFor]
  refine ⟨by simp [buildFindings], hmap, ?_⟩
  rw [hmap]
  exact (dedupByKey_pairwise deps).map depKey (fun a b h => h)

/-- C4: Serializing any report to JSON and parsing it back yields the
original report. -/
theorem c4_report_json_roundtrip (r : Report) :
    reportFromJson (reportToJson r) = some r := by
  cases r with
  | mk fs s b =>
    cases s with
    | mk a d u =>
      simp [reportToJson, reportFromJson, jsonToFindings_map, strToPassed_passedToStr]

/-- C5: When the manifest locator's walk over a directory finds zero
manifests, the scan fails with the NoManifestsFound error and the process
exit code is 2; and an unreadable subdirectory never causes a throw — the
walk is total and maps it to no manifests and exactly one warning record,
skipping its children. -/
theorem c5_no_manifests_error (root : FTree) (p : Policy)
    (parseManifest : String → List Dependency)
    (h : (walkTree "" root).1 = []) :
    feludaScan parseManifest p root = .error .noManifestsFound ∧
    scanExitCode (feludaScan parseManifest p root) = 2 ∧
    ∀ (pth nm : String) (cs : List FTree),
      walkTree pth (.dir nm false cs) = ([], [⟨pth ++ "/" ++ nm⟩]) := by
  have hloc : locateManifests root = .error .noManifestsFound := by
    simp [locateManifests, h]
  refine ⟨?_, ?_, ?_⟩
  · simp [feludaScan, hloc]
  · simp [feludaScan, hloc, scanExitCode]
  · intro pth nm cs
    simp [walkTree]

/-- Witness for C5: a project directory whose only manifest sits inside an
unreadable subdirectory: the walk yields zero manifests, the scan fails
with NoManifestsFound and exit code 2. -/
theorem c5_no_manifests_error_witness :
    (walkTree "" (FTree.dir "proj" true [FTree.dir "secrets" false [FTree.file "Cargo.toml"]])).1 = [] ∧
    (feludaScan (fun _ => []) ⟨["MIT"], [], Verdict.denied⟩
        (FTree.dir "proj" true [FTree.dir "secrets" false [FTree.file "Cargo.toml"]])
      = .error .noManifestsFound ∧
     scanExitCode (feludaScan (fun _ => []) ⟨["MIT"], [], Verdict.denied⟩
        (FTree.dir "proj" true [FTree.dir "secrets" false [FTree.file "Cargo.toml"]])) = 2 ∧
     ∀ (pth nm : String) (cs : List FTree),
       walkTree pth (.dir nm false cs) = ([], [⟨pth ++ "/" ++ nm⟩])) :=
  ⟨by decide,
   c5_no_manifests_error (FTree.dir "proj" true [FTree.dir "secrets" false [FTree.file "Cargo.toml"]])
     ⟨["MIT"], [], Verdict.denied⟩ (fun _ => []) (by decide)⟩

/-- C6: A dependency whose license cannot be resolved (resolution
confidence is unknown), under a policy that does not explicitly allow
unknown licenses, receives the verdict denied. -/
theorem c6_unknown_defaults_to_denied (d : Dependency) (p : Policy)
    (h1 : (resolveLicense d).confidence = Confidence.unknown)
    (h2 : p.unknownDefault ≠ Verdict.allowed) :
    (findingFor p d).verdict = Verdict.denied := by
  simp [findingFor, verdictFor, h1, h2]

/-- Witness for C6: a dependency with no declared license under a
default-deny policy is denied. -/
theorem c6_unknown_defaults_to_denied_witness :
    (resolveLicense ⟨"leftpad", "1.0.0", "npm", none, true⟩).confidence = Confidence.unknown ∧
    (⟨["MIT"], ["GPL-3.0"], Verdict.denied⟩ : Policy).unknownDefault ≠ Verdict.allowed ∧
    (findingFor ⟨["MIT"], ["GPL-3.0"], Verdict.denied⟩ ⟨"leftpad", "1.0.0", "npm", none, true⟩).verdict
      = Verdict.denied :=
  ⟨by decide, by decide,
   c6_unknown_defaults_to_denied ⟨"leftpad", "1.0.0", "npm", none, true⟩
     ⟨["MIT"], ["GPL-3.0"], Verdict.denied⟩ (by decide) (by decide)⟩

/-- C7: The theme metadata of conf.py identifies the documented tool: the
crate_url theme option is the crates.io package feluda and the project
name is Feluda. -/
theorem c7_theme_identifies_feluda :
    lookupAssign "project" confPy = some (.strLit "Feluda") ∧
    themeOption "crate_url" = some (.strLit "https://crates.io/crates/feluda") :=
  ⟨rfl, rfl⟩

/-- C8: For every Sphinx application object, the setup hook of conf.py
performs exactly two asset registrations — custom.css via add_css_file,
then custom.js via add_js_file, in that order — leaves all other
application state unchanged, and returns None. -/
theorem c8_setup_registers_two_assets (app : SphinxApp) :
    (setup app).1.registrations
      = app.registrations ++ [.cssFile "custom.css", .jsFile "custom.js"] ∧
    (setup app).1.config = app.config ∧
    (setup app).1.events = app.events ∧
    (setup app).2 = none := by
  have hb : setup app =
      ({ app with registrations :=
          app.registrations ++ [.cssFile "custom.css"] ++ [.jsFile "custom.js"] }, none) := rfl
  rw [hb]
  refine ⟨by simp, rfl, rfl, rfl⟩

/-- C9: conf.py's linkcheck_ignore holds exactly two patterns; every URL
beginning with the crates.io origin matches the first, every URL beginning
with the api.opensource.org origin matches the second, and the project's
GitHub URL matches neither. -/
theorem c9_linkcheck_ignore_patterns (rest1 rest2 : String) :
    linkcheck_ignore.length = 2 ∧
    reMatch (linkcheck_ignore.getD 0 "") ("https://crates.io/" ++ rest1) = true ∧
    reMatch (linkcheck_ignore.getD 1 "") ("https://api.opensource.org/" ++ rest2) = true ∧
    reMatch (linkcheck_ignore.getD 0 "") "https://github.com/anistark/feluda" = false ∧
    reMatch (linkcheck_ignore.getD 1 "") "https://github.com/anistark/feluda" = false := by
  refine ⟨rfl, ?_, ?_, by decide, by decide⟩
  · show reMatch "https://crates\\.io/" ("https://crates.io/" ++ rest1) = true
    have h : regexLits ("https://crates\\.io/".data) = some ("https://crates.io/".data) := by
      decide
    simp [reMatch, h, String.data_append, litsMatch]
  · show reMatch "https://api\\.opensource\\.org/" ("https://api.opensource.org/" ++ rest2) = true
    have h : regexLits ("https://api\\.opensource\\.org/".data)
        = some ("https://api.opensource.org/".data) := by
      decide
    simp [reMatch, h, String.data_append, litsMatch]

/-- C10: Loading conf.py is deterministic and free of input dependence:
any two module evaluations, under arbitrary ambient resolvers, produce
identical bindings, and in particular bind project to Feluda, release to
v1.10.0, html_theme to shibuya, extensions to the three-element extension
list, and exclude_patterns to the empty list. -/
theorem c10_module_loading_deterministic (ext1 ext2 : PyExpr → PyExpr) :
    evalModule ext1 confPy = evalModule ext2 confPy ∧
    List.lookup "project" (evalModule ext1 confPy) = some (.strLit "Feluda") ∧
    List.lookup "release" (evalModule ext1 confPy) = some (.strLit "v1.10.0") ∧
    List.lookup "html_theme" (evalModule ext1 confPy) = some (.strLit "shibuya") ∧
    List.lookup "extensions" (evalModule ext1 confPy)
      = some (.listLit [.strLit "sphinx_design", .strLit "sphinx_iconify",
          .strLit "sphinx_tabs.tabs"]) ∧
    List.lookup "exclude_patterns" (evalModule ext1 confPy) = some (.listLit []) := by
  refine ⟨(evalModule_confPy ext1).trans (evalModule_confPy ext2).symm, ?_, ?_, ?_, ?_, ?_⟩
    <;> rw [evalModule_confPy ext1]
    <;> rfl
